import Mathlib

/-
Verification of the KiranaAI voice-session controller
(`src/src/hooks/useVoiceManager.js` and the later revision in
`src/unnamed/part_007`).

The controller is a single-threaded, callback-driven state machine.  We embed
it shallowly: React state and refs become fields of an explicit record `Vm`,
each operation becomes a state-transformer, the platform collaborators
(Capacitor, SpeechRecognition, TextToSpeech, the chat backend) become
parameters (`Env`, an `Except` outcome for the backend call, a `Bool` for the
TTS outcome), and calls to the capabilities are recorded in ghost counters
(`recognitionStarts`, `recognitionStops`, `ttsStops`, `backendCalls`).

The timer logic of the listening phase (silence timer, force-commit timer,
no-speech timer) is embedded separately as a small discrete-event semantics
(`Listen` below) with explicit millisecond timestamps, faithful to the
`partialResults` / `finalResults` listeners registered by `startListening`.
-/

namespace KiranaVoice

/-- Conversation roles, from the `{ role: 'user' | 'assistant', content }`
objects pushed onto `conversationHistoryRef`. -/
inductive Role
| user
| assistant
deriving DecidableEq, Repr

/-- One conversation-history entry. -/
structure Msg where
  role : Role
  content : String
deriving DecidableEq, Repr

/-- `if (history.length > 10) history = history.slice(-10)` — keep only the
last 10 entries.  JS `slice(-10)` on a longer list is `drop (length - 10)`. -/
def trimHistory (h : List Msg) : List Msg :=
  if h.length > 10 then h.drop (h.length - 10) else h

/-- The history update performed by `processTranscript` on a successful
backend call: push the user/assistant pair, then trim to 10 entries. -/
def commitHistory (h : List Msg) (userText aiText : String) : List Msg :=
  trimHistory (h ++ [Msg.mk Role.user userText, Msg.mk Role.assistant aiText])

/-- JS `String.prototype.trim()`: the string with leading and trailing
whitespace removed.  (Defined structurally over the character list so that
concrete instances evaluate inside the kernel; Lean's own `String.trim` is
extensionally the same but is defined by well-founded recursion.) -/
def jsTrim (s : String) : String :=
  String.mk (((s.data.dropWhile Char.isWhitespace).reverse.dropWhile Char.isWhitespace).reverse)

/-- `VOICE_STATES` from the source. -/
inductive VoiceState
| idle
| listening
| thinking
| speaking
deriving DecidableEq, Repr

/-- Platform collaborators, as observed by the controller:
whether `Capacitor.isNativePlatform()` holds, whether the speech permission
check/request ends `granted`, and whether `SpeechRecognition.start` resolves
without throwing. -/
structure Env where
  isNativePlatform : Bool
  permissionGranted : Bool
  recognitionStartOk : Bool
deriving DecidableEq, Repr

/-- The controller state: the React `useState` values (`voiceState`,
`transcript`, `aiResponse`, `error`, `isActive`), the mutable refs
(`isListeningRef`, `isSpeakingRef`, `conversationHistoryRef`,
`hasSetForceTimerRef`, timer refs modelled as armed-flags), the pending
1-second retry scheduled by the part_007 `processTranscript` catch branch,
and ghost counters recording calls into the platform capabilities. -/
structure Vm where
  voiceState : VoiceState
  transcript : String
  aiResponse : String
  error : Option String
  isActive : Bool
  isListening : Bool
  isSpeaking : Bool
  history : List Msg
  silenceArmed : Bool
  noSpeechArmed : Bool
  forceArmed : Bool
  hasSetForceTimer : Bool
  retryScheduled : Bool
  recognitionStarts : Nat
  recognitionStops : Nat
  ttsStops : Nat
  backendCalls : Nat
deriving DecidableEq, Repr

/-- Initial hook state: `IDLE`, empty strings, no error, inactive, no timers,
empty history. -/
def initVm : Vm :=
  { voiceState := VoiceState.idle
    transcript := ""
    aiResponse := ""
    error := none
    isActive := false
    isListening := false
    isSpeaking := false
    history := []
    silenceArmed := false
    noSpeechArmed := false
    forceArmed := false
    hasSetForceTimer := false
    retryScheduled := false
    recognitionStarts := 0
    recognitionStops := 0
    ttsStops := 0
    backendCalls := 0 }

/-- `clearTimers`: cancel the silence, no-speech and force-process timers and
reset `hasSetForceTimerRef`. -/
def clearTimers (s : Vm) : Vm :=
  { s with silenceArmed := false, noSpeechArmed := false, forceArmed := false,
           hasSetForceTimer := false }

/-- `stopListening`: if the recognition capability is running, stop it
(`SpeechRecognition.stop()`, counted in `recognitionStops`). -/
def stopListening (s : Vm) : Vm :=
  if s.isListening then
    { s with isListening := false, recognitionStops := s.recognitionStops + 1 }
  else s

/-- `stopSpeaking`: if the synthesis capability is running, stop it
(`TextToSpeech.stop()`, counted in `ttsStops`). -/
def stopSpeaking (s : Vm) : Vm :=
  if s.isSpeaking then
    { s with isSpeaking := false, ttsStops := s.ttsStops + 1 }
  else s

/-- `startListening` (identical in both revisions): bail out with an error on
non-native platforms; otherwise clear timers, enter `LISTENING`, clear the
transcript and response, set `isListeningRef`; then check permissions, invoke
`SpeechRecognition.start` (counted in `recognitionStarts`) and arm the
no-speech timer; the catch branch surfaces the error, resets
`isListeningRef`, returns to `IDLE` and deactivates the session. -/
def startListening (env : Env) (s : Vm) : Vm :=
  if env.isNativePlatform = false then
    { s with error := some ("Voice mode is only available on mobile devices") }
  else
    let s1 := clearTimers s
    let s2 := { s1 with voiceState := VoiceState.listening, transcript := "",
                        aiResponse := "", isListening := true }
    if env.permissionGranted then
      let s3 := { s2 with recognitionStarts := s2.recognitionStarts + 1 }
      if env.recognitionStartOk then
        { s3 with noSpeechArmed := true }
      else
        { s3 with error := some ("Failed to start listening"),
                  isListening := false, voiceState := VoiceState.idle,
                  isActive := false }
    else
      { s2 with error := some ("Microphone permission denied"),
                isListening := false, voiceState := VoiceState.idle,
                isActive := false }

/-- `speakResponse` (useVoiceManager.js revision): on blank text restart
listening if active; otherwise enter `SPEAKING`, run TTS (`ttsOk` tells
whether `TextToSpeech.speak` resolved or threw), clear `isSpeakingRef`, set
the error on the throw path, and restart listening if active. -/
def speakResponse (env : Env) (ttsOk : Bool) (s : Vm) (text : String) : Vm :=
  if text = "" ∨ jsTrim text = "" then
    (if s.isActive then startListening env s else s)
  else
    let s1 := { s with voiceState := VoiceState.speaking, isSpeaking := true }
    if ttsOk then
      let s2 := { s1 with isSpeaking := false }
      (if s2.isActive then startListening env s2 else s2)
    else
      let s2 := { s1 with isSpeaking := false,
                          error := some ("Failed to speak response") }
      (if s2.isActive then startListening env s2 else s2)

/-- `speakResponse` (part_007 first revision): same entry, but after the TTS
promise settles it only recovers when `isSpeakingRef` is still set and the
session is active, going through `IDLE` before restarting listening. -/
def speakResponseP7 (env : Env) (ttsOk : Bool) (s : Vm) (text : String) : Vm :=
  if text = "" ∨ jsTrim text = "" then
    (if s.isActive then startListening env s else s)
  else
    let s1 := { s with voiceState := VoiceState.speaking, isSpeaking := true }
    if ttsOk then
      (if s1.isSpeaking ∧ s1.isActive then
        startListening env { s1 with isSpeaking := false, voiceState := VoiceState.idle }
      else s1)
    else
      (if s1.isActive ∧ s1.isSpeaking then
        startListening env { s1 with isSpeaking := false, voiceState := VoiceState.idle }
      else s1)

/-- `processTranscript` (part_007 first revision): no-op on empty or
whitespace-only text; otherwise enter `THINKING`, call the backend (counted
in `backendCalls`; outcome passed in as `backend`); on success record the
reply, push and trim the history and speak the reply; on failure surface
`Failed: <message>`, fall to `IDLE` and, if the session is still active,
schedule `startListening` after a 1 s delay (`retryScheduled`). -/
def processTranscript (env : Env) (backend : Except String String) (ttsOk : Bool)
    (s : Vm) (text : String) : Vm :=
  if text = "" ∨ jsTrim text = "" then s
  else
    let s1 := { s with voiceState := VoiceState.thinking, transcript := text,
                       backendCalls := s.backendCalls + 1 }
    match backend with
    | Except.ok aiText =>
      let s2 := { s1 with aiResponse := aiText,
                          history := commitHistory s1.history text aiText }
      speakResponseP7 env ttsOk s2 aiText
    | Except.error msg =>
      let s3 := { s1 with error := some ("Failed: " ++ msg),
                          voiceState := VoiceState.idle }
      if s3.isActive then { s3 with retryScheduled := true } else s3

/-- `processTranscript` (useVoiceManager.js revision): identical success
path, but the catch branch surfaces the error, falls to `IDLE` and
deactivates the session (`setIsActive(false)`) instead of retrying. -/
def processTranscriptJs (env : Env) (backend : Except String String) (ttsOk : Bool)
    (s : Vm) (text : String) : Vm :=
  if text = "" ∨ jsTrim text = "" then s
  else
    let s1 := { s with voiceState := VoiceState.thinking, transcript := text,
                       backendCalls := s.backendCalls + 1 }
    match backend with
    | Except.ok aiText =>
      let s2 := { s1 with aiResponse := aiText,
                          history := commitHistory s1.history text aiText }
      speakResponse env ttsOk s2 aiText
    | Except.error msg =>
      { s1 with error := some ("Failed: " ++ msg),
                voiceState := VoiceState.idle, isActive := false }

/-- The 1-second retry scheduled by the part_007 catch branch firing:
run `startListening`. -/
def fireRetry (env : Env) (s : Vm) : Vm :=
  if s.retryScheduled then startListening env { s with retryScheduled := false }
  else s

/-- `startVoiceMode`: activate the session, clear the error and the
conversation history, then start listening.  There is no already-active
guard in either revision. -/
def startVoiceMode (env : Env) (s : Vm) : Vm :=
  startListening env { s with isActive := true, error := none, history := [] }

/-- `stopVoiceMode` (useVoiceManager.js revision): deactivate, clear all
timers, stop recognition and synthesis, remove listeners, return to `IDLE`
and clear the transcript, response and history. -/
def stopVoiceMode (s : Vm) : Vm :=
  let s1 := clearTimers { s with isActive := false }
  let s2 := stopListening s1
  let s3 := stopSpeaking s2
  { s3 with voiceState := VoiceState.idle, transcript := "", aiResponse := "",
            history := [] }

/-- `interrupt`: if the synthesis capability is running (`isSpeakingRef`),
stop it and restart listening; otherwise do nothing. -/
def interrupt (env : Env) (s : Vm) : Vm :=
  if s.isSpeaking then startListening env (stopSpeaking s) else s

/-- The part_007 watchdog delay: `setTimeout(..., 10000)` armed by the
`useEffect` whenever `voiceState === SPEAKING`. -/
def watchdogTimeoutMs : Nat := 10000

/-- Deadline of the watchdog armed at time `t0`: the effect arms the timer
exactly while the state is `SPEAKING` (its cleanup clears it on any state
change), so the deadline exists iff the state is `SPEAKING`. -/
def watchdogDeadline (t0 : Nat) (s : Vm) : Option Nat :=
  if s.voiceState = VoiceState.speaking then some (t0 + watchdogTimeoutMs)
  else none

/-- The part_007 watchdog firing: still in `SPEAKING` (no completion signal
arrived), so force-clear `isSpeakingRef`, fall to `IDLE`, and restart
listening if the session is still active. -/
def watchdogFire (env : Env) (s : Vm) : Vm :=
  if s.voiceState = VoiceState.speaking then
    let s1 := { s with isSpeaking := false, voiceState := VoiceState.idle }
    if s1.isActive then startListening env s1 else s1
  else s

end KiranaVoice

namespace KiranaVoice

/-! ### Timed model of the listening phase

Discrete-event semantics of the `partialResults` / `finalResults` listeners
and the three timers armed by `startListening`, with millisecond timestamps.
Timers fire in deadline order; the `commits` field records every invocation
of `processTranscript` (the commit operation) with its argument. -/

/-- Modelled from the spec: `SILENCE_TIMEOUT_MS` is imported from
`src/utils/voiceConfig.js`, which is not among the provided sources; the
spec gives the silence-commit window as a fixed short window of
~1.2–1.5 s, so we take 1500 ms. -/
def SILENCE_TIMEOUT_MS : Nat := 1500

/-- Modelled from the spec: `NO_SPEECH_TIMEOUT_MS` is imported from
`src/utils/voiceConfig.js`, which is not among the provided sources; the
spec gives the no-speech timeout as several seconds (at least 8 s), so we
take 8000 ms. -/
def NO_SPEECH_TIMEOUT_MS : Nat := 8000

/-- The force-process delay, literal `3000` in the source. -/
def FORCE_PROCESS_MS : Nat := 3000

/-- State of one listening phase: current time, the `lastTranscript`
closure variable, `hasSetForceTimerRef`, the three timers (the silence timer
captures the interim text it was armed with), whether
`SpeechRecognition.stop` has been issued, and the recorded
`processTranscript` invocations. -/
structure Listen where
  now : Nat
  lastTranscript : String
  hasSetForce : Bool
  silence : Option (Nat × String)
  noSpeech : Option Nat
  force : Option Nat
  recognitionStopped : Bool
  commits : List String
deriving DecidableEq, Repr

/-- State right after `startListening` succeeds at time 0: only the
no-speech timer is armed. -/
def initListen : Listen :=
  { now := 0
    lastTranscript := ""
    hasSetForce := false
    silence := none
    noSpeech := some NO_SPEECH_TIMEOUT_MS
    force := none
    recognitionStopped := false
    commits := [] }

/-- `clearTimers` as seen from inside the listening phase. -/
def clearTimersL (st : Listen) : Listen :=
  { st with silence := none, noSpeech := none, force := none,
            hasSetForce := false }

/-- The silence timer firing at its deadline `d` with captured interim text
`w`: if the text is truthy and its trimmed length exceeds 3, stop
recognition and invoke `processTranscript w`.  It cancels neither the
force-process timer nor the no-speech timer. -/
def fireSilence (d : Nat) (w : String) (st : Listen) : Listen :=
  let st1 := { st with now := d, silence := none }
  if w ≠ "" ∧ (jsTrim w).length > 3 then
    { st1 with recognitionStopped := true, commits := st1.commits ++ [w] }
  else st1

/-- The force-process timer firing at `d`: read `lastTranscript`, cancel the
silence and no-speech timers (but not `hasSetForceTimerRef`), stop
recognition, and invoke `processTranscript` when the text is truthy with
trimmed length over 3. -/
def fireForce (d : Nat) (st : Listen) : Listen :=
  let w := st.lastTranscript
  let st1 := { st with now := d, force := none, silence := none,
                       noSpeech := none, recognitionStopped := true }
  if w ≠ "" ∧ (jsTrim w).length > 3 then
    { st1 with commits := st1.commits ++ [w] }
  else st1

/-- The no-speech timer firing at `d` (part_007 first revision): restart
listening, which clears all timers and re-arms the no-speech timer. -/
def fireNoSpeech (d : Nat) (st : Listen) : Listen :=
  { st with now := d, silence := none, force := none, hasSetForce := false,
            noSpeech := some (d + NO_SPEECH_TIMEOUT_MS), lastTranscript := "" }

/-- Which of the three timers (if any) fires next, no later than `target`:
the earliest armed deadline, preferring the order silence, force, no-speech
on ties. -/
def nextFire (target : Nat) (st : Listen) : Option (Nat × Nat) :=
  let cands :=
    (match st.silence with
     | some p => [(p.1, 0)]
     | none => []) ++
    (match st.force with
     | some d => [(d, 1)]
     | none => []) ++
    (match st.noSpeech with
     | some d => [(d, 2)]
     | none => [])
  let cands := cands.filter (fun c => c.1 ≤ target)
  cands.foldl
    (fun acc c =>
      match acc with
      | none => some c
      | some b => if c.1 < b.1 then some c else some b)
    none

/-- Advance the clock to `target`, firing every due timer in deadline
order.  `fuel` bounds the number of firings (each event trace we evaluate
uses far less). -/
def advance : Nat → Nat → Listen → Listen
  | 0, target, st => { st with now := target }
  | Nat.succ fuel, target, st =>
    match nextFire target st with
    | none => { st with now := target }
    | some (d, 0) =>
      match st.silence with
      | some p => advance fuel target (fireSilence d p.2 st)
      | none => { st with now := target }
    | some (d, 1) => advance fuel target (fireForce d st)
    | some (d, _) => advance fuel target (fireNoSpeech d st)

/-- A platform speech event: a `partialResults` or `finalResults` callback
with its `data.matches`. -/
inductive SpeechEvent
| interim (ms : List String)
| finalRes (ms : List String)
deriving Repr

/-- The `partialResults` listener at time `t`: on a non-empty match list,
record the interim text in `lastTranscript`; if its trimmed length exceeds 3
and the force timer has not been armed for this utterance, arm it for
`t + 3000`; reset the no-speech timer if armed; re-arm the silence timer for
`t + SILENCE_TIMEOUT_MS`, capturing the interim text. -/
def onInterim (t : Nat) (ms : List String) (st : Listen) : Listen :=
  match ms with
  | [] => st
  | w :: _ =>
    let st1 := { st with now := t, lastTranscript := w }
    let st2 :=
      if (jsTrim w).length > 3 ∧ st1.hasSetForce = false then
        { st1 with hasSetForce := true, force := some (t + FORCE_PROCESS_MS) }
      else st1
    let st3 :=
      match st2.noSpeech with
      | some _ => { st2 with noSpeech := some (t + NO_SPEECH_TIMEOUT_MS) }
      | none => st2
    { st3 with silence := some (t + SILENCE_TIMEOUT_MS, w) }

/-- The `finalResults` listener at time `t`: with a match, clear all timers,
stop recognition and invoke `processTranscript` on the final text; without a
match but with a non-blank `lastTranscript`, do the same with the last
interim text. -/
def onFinal (t : Nat) (ms : List String) (st : Listen) : Listen :=
  match ms with
  | w :: _ =>
    let st1 := clearTimersL { st with now := t }
    { st1 with recognitionStopped := true, commits := st1.commits ++ [w] }
  | [] =>
    if st.lastTranscript ≠ "" ∧ jsTrim st.lastTranscript ≠ "" then
      let st1 := clearTimersL { st with now := t }
      { st1 with recognitionStopped := true,
                 commits := st1.commits ++ [st.lastTranscript] }
    else { st with now := t }

/-- Dispatch one timestamped speech event, after advancing the clock (and
firing due timers) up to its timestamp. -/
def handleEvent (t : Nat) (e : SpeechEvent) (st : Listen) : Listen :=
  match e with
  | SpeechEvent.interim ms => onInterim t ms st
  | SpeechEvent.finalRes ms => onFinal t ms st

/-- Run a chronologically ordered trace of speech events, then advance to
the horizon. -/
def runEvents (fuel horizon : Nat) : List (Nat × SpeechEvent) → Listen → Listen
  | [], st => advance fuel horizon st
  | (t, e) :: rest, st => runEvents fuel horizon rest (handleEvent t e (advance fuel t st))

/-- Evaluate one listening phase started at time 0 on an event trace, up to
`horizon` milliseconds. -/
def runListenTrace (events : List (Nat × SpeechEvent)) (horizon : Nat) : Listen :=
  runEvents 100 horizon events initListen

end KiranaVoice

namespace KiranaVoice

/-! ### Concrete sessions used as witnesses and counterexamples -/

/-- A fully capable platform: native, permission granted, recognition
starts cleanly. -/
def envAll : Env :=
  { isNativePlatform := true, permissionGranted := true, recognitionStartOk := true }

/-- The session right after the user starts voice mode on a capable
platform: active and listening, one recognition start issued. -/
def activeSession : Vm := startVoiceMode envAll initVm

/-- An active session in the middle of a backend round-trip. -/
def thinkingSession : Vm := { activeSession with voiceState := VoiceState.thinking }

/-- An active session while the reply is being synthesized. -/
def speakingSession : Vm :=
  { initVm with voiceState := VoiceState.speaking, isSpeaking := true, isActive := true }

/-- The event trace of the C1 counterexample: one interim result at t = 0
with meaningful text, then nothing. -/
def c1Events : List (Nat × SpeechEvent) := [(0, SpeechEvent.interim (["hello"]))]

/-- The six user/assistant pairs of the C2 round-trip. -/
def sixPairs : List (String × String) :=
  [("u1", "a1"), ("u2", "a2"), ("u3", "a3"), ("u4", "a4"), ("u5", "a5"), ("u6", "a6")]

/-- Committing the six pairs in order onto an empty history. -/
def roundTrip6 : List Msg :=
  sixPairs.foldl (fun h p => commitHistory h p.1 p.2) []

/-- The last five pairs, oldest first — what the round-trip should leave. -/
def expected10 : List Msg :=
  [Msg.mk Role.user ("u2"), Msg.mk Role.assistant ("a2"),
   Msg.mk Role.user ("u3"), Msg.mk Role.assistant ("a3"),
   Msg.mk Role.user ("u4"), Msg.mk Role.assistant ("a4"),
   Msg.mk Role.user ("u5"), Msg.mk Role.assistant ("a5"),
   Msg.mk Role.user ("u6"), Msg.mk Role.assistant ("a6")]

/-- The conversation-history invariant of the spec: at most 10 entries, and
an even count (complete user/assistant pairs). -/
def histInv (h : List Msg) : Prop := h.length ≤ 10 ∧ h.length % 2 = 0

/-! ### Helper lemmas -/

/-- `commitHistory` in closed form: append the pair, then drop the overflow
from the front (oldest entries first). -/
theorem commitHistory_drop (h : List Msg) (u a : String) :
    commitHistory h u a =
      (h ++ [Msg.mk Role.user u, Msg.mk Role.assistant a]).drop (h.length + 2 - 10) := by
  unfold commitHistory trimHistory
  have hlen : (h ++ [Msg.mk Role.user u, Msg.mk Role.assistant a]).length = h.length + 2 := by
    simp
  rw [hlen]
  split
  · rfl
  · next hle =>
    have h0 : h.length + 2 - 10 = 0 := by omega
    rw [h0, List.drop_zero]

/-- Length of the history after a commit. -/
theorem commitHistory_length (h : List Msg) (u a : String) :
    (commitHistory h u a).length = min (h.length + 2) 10 := by
  rw [commitHistory_drop, List.length_drop]
  simp
  omega

/-- A commit preserves the history invariant. -/
theorem histInv_commit (h : List Msg) (u a : String) (hinv : histInv h) :
    histInv (commitHistory h u a) := by
  obtain ⟨h1, h2⟩ := hinv
  constructor <;> rw [commitHistory_length] <;> omega

/-- `startListening` never touches the conversation history. -/
theorem startListening_history (env : Env) (s : Vm) :
    (startListening env s).history = s.history := by
  unfold startListening clearTimers
  repeat' split
  all_goals rfl

/-- `speakResponse` (js revision) never touches the conversation history. -/
theorem speakResponse_history (env : Env) (ttsOk : Bool) (s : Vm) (text : String) :
    (speakResponse env ttsOk s text).history = s.history := by
  unfold speakResponse
  split
  · split <;> simp [startListening_history]
  · dsimp only
    split <;> (split <;> simp [startListening_history])

/-- `speakResponse` (part_007 revision) never touches the history. -/
theorem speakResponseP7_history (env : Env) (ttsOk : Bool) (s : Vm) (text : String) :
    (speakResponseP7 env ttsOk s text).history = s.history := by
  unfold speakResponseP7
  split
  · split <;> simp [startListening_history]
  · dsimp only
    split <;> (split <;> simp [startListening_history])

/-- History behaviour of `processTranscript` (part_007 revision): unchanged
on blank text and on backend failure; one committed pair on success. -/
theorem processTranscript_history (env : Env) (backend : Except String String)
    (ttsOk : Bool) (s : Vm) (text : String) :
    (processTranscript env backend ttsOk s text).history =
      (if text = "" ∨ jsTrim text = "" then s.history
       else
         match backend with
         | Except.ok aiText => commitHistory s.history text aiText
         | Except.error _ => s.history) := by
  unfold processTranscript
  by_cases hb : text = "" ∨ jsTrim text = ""
  · rw [if_pos hb, if_pos hb]
  · rw [if_neg hb, if_neg hb]
    cases backend with
    | ok aiText =>
      dsimp only
      rw [speakResponseP7_history]
    | error msg =>
      dsimp only
      split <;> rfl

/-- History behaviour of `processTranscriptJs` (useVoiceManager.js
revision): same as the part_007 revision. -/
theorem processTranscriptJs_history (env : Env) (backend : Except String String)
    (ttsOk : Bool) (s : Vm) (text : String) :
    (processTranscriptJs env backend ttsOk s text).history =
      (if text = "" ∨ jsTrim text = "" then s.history
       else
         match backend with
         | Except.ok aiText => commitHistory s.history text aiText
         | Except.error _ => s.history) := by
  unfold processTranscriptJs
  by_cases hb : text = "" ∨ jsTrim text = ""
  · rw [if_pos hb, if_pos hb]
  · rw [if_neg hb, if_neg hb]
    cases backend with
    | ok aiText =>
      dsimp only
      rw [speakResponse_history]
    | error msg => rfl

/-- `startVoiceMode` resets the history to empty. -/
theorem startVoiceMode_history (env : Env) (s : Vm) :
    (startVoiceMode env s).history = [] := by
  unfold startVoiceMode
  rw [startListening_history]

/-- `stopVoiceMode` resets the history to empty. -/
theorem stopVoiceMode_history (s : Vm) :
    (stopVoiceMode s).history = [] := rfl

end KiranaVoice

namespace KiranaVoice

/-! ### Claim theorems -/

/-- C1 (claim refuted by evaluation — code bug): the claim says that for an
utterance whose recognized text is longer than 3 characters exactly one
commit path invokes `processTranscript`.  On the trace with a single interim
result `"hello"` (trimmed length 5 > 3) at t = 0 and no further events, the
silence timer fires at 1500 ms and commits, and the force-commit timer —
which the silence handler does not cancel, and which the unused
`isProcessingRef` guard was meant to suppress — fires at 3000 ms and commits
the same utterance again: two `processTranscript` invocations, not one. -/
theorem C1_double_commit :
    (runListenTrace c1Events 3000).commits = ["hello", "hello"] ∧
    (jsTrim ("hello")).length > 3 := by
  decide

/-- C2: the conversation history never exceeds 10 entries and eviction is
FIFO: a commit appends the user/assistant pair and drops the overflow from
the front (oldest first), the resulting length is `min (old + 2) 10`, and
the round-trip of 6 pairs pushed onto an empty history leaves exactly the
last 5 pairs (10 entries), the oldest 2 entries dropped. -/
theorem C2_history_cap_fifo_roundtrip :
    (∀ (h : List Msg) (u a : String),
      commitHistory h u a =
        (h ++ [Msg.mk Role.user u, Msg.mk Role.assistant a]).drop (h.length + 2 - 10) ∧
      (commitHistory h u a).length = min (h.length + 2) 10) ∧
    roundTrip6 = expected10 ∧ roundTrip6.length = 10 := by
  refine ⟨fun h u a => ⟨commitHistory_drop h u a, commitHistory_length h u a⟩, ?_, ?_⟩ <;> decide

/-- C3: `stopVoiceMode`, called from any state whatsoever, leaves the
session with `voiceState = IDLE` and `isActive = false`, with every timer
cleared, with recognition and synthesis no longer running (issuing the
corresponding stop call exactly when the capability was running), and with
the transient fields and history cleared. -/
theorem C3_stopVoiceMode_total (s : Vm) :
    (stopVoiceMode s).voiceState = VoiceState.idle ∧
    (stopVoiceMode s).isActive = false ∧
    (stopVoiceMode s).silenceArmed = false ∧
    (stopVoiceMode s).noSpeechArmed = false ∧
    (stopVoiceMode s).forceArmed = false ∧
    (stopVoiceMode s).hasSetForceTimer = false ∧
    (stopVoiceMode s).isListening = false ∧
    (stopVoiceMode s).isSpeaking = false ∧
    (stopVoiceMode s).recognitionStops
      = s.recognitionStops + (if s.isListening then 1 else 0) ∧
    (stopVoiceMode s).ttsStops = s.ttsStops + (if s.isSpeaking then 1 else 0) := by
  unfold stopVoiceMode clearTimers stopListening stopSpeaking
  by_cases hl : s.isListening <;> by_cases hs : s.isSpeaking <;> simp [hl, hs]

/-- C4 counterexample: the claim says a failed backend call is retried by
re-entering Listening rather than terminating the session.  In the
`useVoiceManager.js` revision, a backend failure during an active session
(here: the utterance "hello there" failing with "network error") sets
`isActive` to `false` and drops to `IDLE` with no retry scheduled — the
session is terminated, not retried. -/
theorem C4_counterexample_js_terminates :
    thinkingSession.isActive = true ∧
    (processTranscriptJs envAll (Except.error ("network error")) true
        thinkingSession ("hello there")).isActive = false ∧
    (processTranscriptJs envAll (Except.error ("network error")) true
        thinkingSession ("hello there")).voiceState = VoiceState.idle ∧
    (processTranscriptJs envAll (Except.error ("network error")) true
        thinkingSession ("hello there")).retryScheduled = false := by
  decide

/-- C4 (amended): in the part_007 revision of `processTranscript`, a failed
backend call surfaces `Failed: <message>` in the error field, leaves the
session active, and schedules a retry whose firing re-enters Listening;
permission-denied failures of `startListening` are fatal (they deactivate
the session and surface the permission error).  The `useVoiceManager.js`
revision instead terminates the session (see the counterexample). -/
theorem C4_backend_failure_retry_p7 (env : Env) (ttsOk : Bool) (s : Vm)
    (text msg : String)
    (hact : s.isActive = true)
    (hnb : ¬(text = "" ∨ jsTrim text = ""))
    (hn : env.isNativePlatform = true) (hp : env.permissionGranted = true)
    (ho : env.recognitionStartOk = true) :
    (processTranscript env (Except.error msg) ttsOk s text).error
      = some ("Failed: " ++ msg) ∧
    (processTranscript env (Except.error msg) ttsOk s text).isActive = true ∧
    (processTranscript env (Except.error msg) ttsOk s text).retryScheduled = true ∧
    (fireRetry env (processTranscript env (Except.error msg) ttsOk s text)).voiceState
      = VoiceState.listening ∧
    (startListening { env with permissionGranted := false } s).isActive = false ∧
    (startListening { env with permissionGranted := false } s).error
      = some ("Microphone permission denied") := by
  unfold processTranscript fireRetry startListening clearTimers
  simp [hnb, hact, hn, hp, ho]

/-- C5: while the session is in `SPEAKING` and the synthesis capability
never signals completion, the part_007 watchdog is armed with deadline
exactly 10000 ms away (within the ~10 s bound); when it fires it force-clears
`isSpeakingRef`, leaves the `SPEAKING` state, and — if the session is still
active on a capable platform — restarts listening. -/
theorem C5_watchdog_forces_exit (t0 : Nat) (env : Env) (s : Vm)
    (hspk : s.voiceState = VoiceState.speaking)
    (hn : env.isNativePlatform = true) (hp : env.permissionGranted = true)
    (ho : env.recognitionStartOk = true) :
    watchdogDeadline t0 s = some (t0 + watchdogTimeoutMs) ∧
    t0 + watchdogTimeoutMs - t0 ≤ 10000 ∧
    (watchdogFire env s).isSpeaking = false ∧
    (watchdogFire env s).voiceState ≠ VoiceState.speaking ∧
    (s.isActive = true → (watchdogFire env s).voiceState = VoiceState.listening) := by
  refine ⟨by simp [watchdogDeadline, hspk], by simp [watchdogTimeoutMs], ?_, ?_, ?_⟩ <;>
    unfold watchdogFire startListening clearTimers <;>
    by_cases ha : s.isActive <;>
    simp [hspk, hn, hp, ho, ha]

/-- C6 counterexample: the claim says calling `startVoiceMode` while the
session is already active does not start recognition a second time.  From
the active session (one `SpeechRecognition.start` already issued), a second
`startVoiceMode` call issues a second recognition start (and also wipes the
conversation history): there is no already-active guard. -/
theorem C6_counterexample_double_start :
    activeSession.isActive = true ∧
    activeSession.recognitionStarts = 1 ∧
    (startVoiceMode envAll activeSession).recognitionStarts = 2 := by
  decide

/-- C6 (amended): `startVoiceMode` is not idempotent with respect to
capability acquisition: every call on a capable platform — including while
the session is already active — unconditionally runs `startListening`,
issuing one more `SpeechRecognition.start`, and resets the conversation
history. -/
theorem C6_startVoiceMode_always_starts (env : Env) (s : Vm)
    (hn : env.isNativePlatform = true) (hp : env.permissionGranted = true) :
    (startVoiceMode env s).recognitionStarts = s.recognitionStarts + 1 ∧
    (startVoiceMode env s).history = [] := by
  unfold startVoiceMode startListening clearTimers
  simp [hn, hp]
  split <;> simp

/-- C6 witness: the amended theorem applied to the already-active session. -/
theorem C6_startVoiceMode_always_starts_witness :
    (startVoiceMode envAll activeSession).recognitionStarts
      = activeSession.recognitionStarts + 1 ∧
    (startVoiceMode envAll activeSession).history = [] :=
  C6_startVoiceMode_always_starts envAll activeSession rfl rfl

/-- C7: on empty or whitespace-only text the commit operation is a no-op in
both revisions: the returned state is exactly the input state (so no state
change, no history change, and no backend call — the `backendCalls` counter
is part of the state). -/
theorem C7_blank_transcript_noop (env : Env) (backend : Except String String)
    (ttsOk : Bool) (s : Vm) (text : String)
    (hb : text = "" ∨ jsTrim text = "") :
    processTranscript env backend ttsOk s text = s ∧
    processTranscriptJs env backend ttsOk s text = s := by
  constructor
  · unfold processTranscript
    rw [if_pos hb]
  · unfold processTranscriptJs
    rw [if_pos hb]

/-- C7 witness: whitespace-only input on the initial state. -/
theorem C7_blank_transcript_noop_witness :
    processTranscript envAll (Except.ok ("reply")) true initVm ("   ") = initVm ∧
    processTranscriptJs envAll (Except.ok ("reply")) true initVm ("   ") = initVm :=
  C7_blank_transcript_noop envAll (Except.ok ("reply")) true initVm ("   ")
    (Or.inr (by decide))

/-- C8: the conversation-history invariant — at most 10 entries and an even
count (complete user/assistant pairs, oldest first) — holds of the empty
history and is preserved by every controller operation: a commit, both
revisions of `processTranscript` (any backend outcome), `startVoiceMode`
and `stopVoiceMode`. -/
theorem C8_history_even_bounded (env : Env) (backend : Except String String)
    (ttsOk : Bool) (s : Vm) (text u a : String)
    (hinv : histInv s.history) :
    histInv (commitHistory s.history u a) ∧
    histInv (processTranscript env backend ttsOk s text).history ∧
    histInv (processTranscriptJs env backend ttsOk s text).history ∧
    histInv (startVoiceMode env s).history ∧
    histInv (stopVoiceMode s).history := by
  have hnil : histInv ([] : List Msg) := by constructor <;> decide
  refine ⟨histInv_commit _ _ _ hinv, ?_, ?_, ?_, ?_⟩
  · rw [processTranscript_history]
    split
    · exact hinv
    · cases backend with
      | ok aiText => exact histInv_commit _ _ _ hinv
      | error msg => exact hinv
  · rw [processTranscriptJs_history]
    split
    · exact hinv
    · cases backend with
      | ok aiText => exact histInv_commit _ _ _ hinv
      | error msg => exact hinv
  · rw [startVoiceMode_history]
    exact hnil
  · rw [stopVoiceMode_history]
    exact hnil

/-- C8 witness: the invariant theorem applied to the initial state. -/
theorem C8_history_even_bounded_witness :
    histInv (commitHistory initVm.history ("u") ("a")) ∧
    histInv (processTranscript envAll (Except.ok ("reply")) true initVm ("hi there")).history ∧
    histInv (processTranscriptJs envAll (Except.ok ("reply")) true initVm ("hi there")).history ∧
    histInv (startVoiceMode envAll initVm).history ∧
    histInv (stopVoiceMode initVm).history :=
  C8_history_even_bounded envAll (Except.ok ("reply")) true initVm ("hi there") ("u") ("a")
    ⟨by decide, by decide⟩

/-- C9: `interrupt` during synthesis (the code's guard is the
`isSpeakingRef` flag that tracks the Speaking state) stops the in-flight
synthesis (`TextToSpeech.stop`, counted in `ttsStops`) and immediately
re-enters Listening on a capable platform; when no synthesis is running,
`interrupt` changes nothing at all. -/
theorem C9_interrupt_barge_in (env : Env) (s : Vm)
    (hn : env.isNativePlatform = true) (hp : env.permissionGranted = true)
    (ho : env.recognitionStartOk = true) :
    (s.isSpeaking = true →
      (interrupt env s).voiceState = VoiceState.listening ∧
      (interrupt env s).isSpeaking = false ∧
      (interrupt env s).ttsStops = s.ttsStops + 1) ∧
    (s.isSpeaking = false → interrupt env s = s) := by
  constructor
  · intro hs
    unfold interrupt stopSpeaking startListening clearTimers
    simp [hs, hn, hp, ho]
  · intro hs
    unfold interrupt
    simp [hs]

/-- C9 witness: barge-in from the speaking session, and a no-op from the
initial (non-speaking) state. -/
theorem C9_interrupt_barge_in_witness :
    ((interrupt envAll speakingSession).voiceState = VoiceState.listening ∧
     (interrupt envAll speakingSession).isSpeaking = false ∧
     (interrupt envAll speakingSession).ttsStops = speakingSession.ttsStops + 1) ∧
    interrupt envAll initVm = initVm :=
  ⟨(C9_interrupt_barge_in envAll speakingSession rfl rfl rfl).1 rfl,
   (C9_interrupt_barge_in envAll initVm rfl rfl rfl).2 rfl⟩

/-- C10: a failed backend call leaves the conversation history exactly as it
was before the commit began, in both revisions; the user/assistant pair is
appended only when the backend call resolves successfully (third
conjunct). -/
theorem C10_history_unchanged_on_failure (env : Env) (ttsOk : Bool) (s : Vm)
    (text msg aiText : String) :
    (processTranscript env (Except.error msg) ttsOk s text).history = s.history ∧
    (processTranscriptJs env (Except.error msg) ttsOk s text).history = s.history ∧
    (processTranscript env (Except.ok aiText) ttsOk s text).history =
      (if text = "" ∨ jsTrim text = "" then s.history
       else commitHistory s.history text aiText) := by
  refine ⟨?_, ?_, ?_⟩
  · rw [processTranscript_history]
    split <;> rfl
  · rw [processTranscriptJs_history]
    split <;> rfl
  · rw [processTranscript_history]

/-- C4 witness: the amended retry behaviour on the concrete active session
with the failing utterance of the counterexample. -/
theorem C4_backend_failure_retry_p7_witness :
    (processTranscript envAll (Except.error ("network error")) true
        thinkingSession ("hello there")).error = some ("Failed: network error") ∧
    (processTranscript envAll (Except.error ("network error")) true
        thinkingSession ("hello there")).isActive = true ∧
    (processTranscript envAll (Except.error ("network error")) true
        thinkingSession ("hello there")).retryScheduled = true ∧
    (fireRetry envAll (processTranscript envAll (Except.error ("network error")) true
        thinkingSession ("hello there"))).voiceState = VoiceState.listening ∧
    (startListening { envAll with permissionGranted := false } thinkingSession).isActive
      = false ∧
    (startListening { envAll with permissionGranted := false } thinkingSession).error
      = some ("Microphone permission denied") :=
  C4_backend_failure_retry_p7 envAll true thinkingSession ("hello there")
    ("network error") rfl (by decide) rfl rfl rfl

/-- C5 witness: the watchdog theorem applied to the concrete speaking
session with the watchdog armed at t = 0. -/
theorem C5_watchdog_forces_exit_witness :
    watchdogDeadline 0 speakingSession = some (0 + watchdogTimeoutMs) ∧
    0 + watchdogTimeoutMs - 0 ≤ 10000 ∧
    (watchdogFire envAll speakingSession).isSpeaking = false ∧
    (watchdogFire envAll speakingSession).voiceState ≠ VoiceState.speaking ∧
    (speakingSession.isActive = true →
      (watchdogFire envAll speakingSession).voiceState = VoiceState.listening) :=
  C5_watchdog_forces_exit 0 envAll speakingSession rfl rfl rfl rfl

end KiranaVoice
